import Mathlib

/-!
# Verification of the UEFI std adapter layer (tianocore/rust)

Shallow embedding of `library/std/src/sys/uefi/{net/mod.rs, net/tcp4.rs,
pipe.rs, stdio.rs}`.  Firmware behaviour (what the firmware writes into
completion tokens, out-parameters and shared records) is modelled by explicit
oracle records passed to each operation; machine integers are `Nat` with
explicit `% 2^32` where the source casts to `u32`.  Pointer-level facts use
the x86_64 UEFI target layout: `size_of::<usize>() = 8`, so
`IoSlice`/`IoSliceMut` (pointer + length) occupy 16 bytes and a fat slice
reference occupies 16 bytes.
-/

namespace Uefi

/-- UEFI status codes are `usize` values; error codes have the top (63rd) bit
set.  `r_efi::efi::Status::is_error` tests that bit; all codes are `< 2^64`. -/
def ERROR_BIT : Nat := 2 ^ 63

/-- `Status::is_error` from r_efi: top bit of the 64-bit status is set. -/
def isError (s : Nat) : Bool := decide (ERROR_BIT ≤ s)

def SUCCESS : Nat := 0
def INVALID_PARAMETER : Nat := ERROR_BIT + 2
def UNSUPPORTED : Nat := ERROR_BIT + 3
def OUT_OF_RESOURCES : Nat := ERROR_BIT + 9
def ACCESS_DENIED : Nat := ERROR_BIT + 15
def ABORTED : Nat := ERROR_BIT + 21

/-- The generic error taxonomy (`io::ErrorKind` values used by the adapter). -/
inductive ErrorKind where
  | invalidInput
  | outOfMemory
  | unsupported
  | permissionDenied
  | notFound
  | other
  deriving DecidableEq, Repr

/-- `io::Error::new(kind, message)`. -/
structure IoError where
  kind : ErrorKind
  msg : String
  deriving DecidableEq, Repr

/-- Raw firmware handles are modelled as machine words; `0` is the null
handle (`NonNull::new` fails exactly on it). -/
abbrev Handle := Nat

/-- `ServiceBinding` from `net/mod.rs`: family GUID (abstracted to a `Nat`
identifier) plus the parent handle.  `Copy`, never owns children. -/
structure ServiceBinding where
  service_binding_guid : Nat
  handle : Handle
  deriving DecidableEq, Repr

/-- Firmware-side behaviour of one `create_child` call: whether the
service-binding protocol lookup on the parent handle succeeds
(`open_protocol`, defined outside `src/`), the status the firmware call
returns, and the handle value it writes through the out-parameter. -/
structure CreateChildFw where
  openOk : Bool
  status : Nat
  writtenHandle : Handle

/-- `ServiceBinding::create_child` (net/mod.rs:30-59).  On an error status it
translates `INVALID_PARAMETER` / `OUT_OF_RESOURCES` specially and keeps the
raw code in the `Other` message; on success it rejects a null out-handle. -/
def ServiceBinding.create_child (_sb : ServiceBinding) (fw : CreateChildFw) :
    Except IoError Handle :=
  if !fw.openOk then
    .error ⟨.notFound, "open_protocol failed"⟩
  else if isError fw.status then
    if fw.status = INVALID_PARAMETER then
      .error ⟨.invalidInput, "ChildHandle is NULL"⟩
    else if fw.status = OUT_OF_RESOURCES then
      .error ⟨.outOfMemory,
        "There are not enough resources available to create the child"⟩
    else
      .error ⟨.other, "Unknown Error: " ++ toString fw.status⟩
  else
    if fw.writtenHandle = 0 then
      .error ⟨.other, "Null Handle"⟩
    else
      .ok fw.writtenHandle

/-- Firmware-side behaviour of one `destroy_child` call. -/
structure DestroyChildFw where
  openOk : Bool
  status : Nat

/-- `ServiceBinding::destroy_child` (net/mod.rs:61-93). -/
def ServiceBinding.destroy_child (_sb : ServiceBinding) (_child : Handle)
    (fw : DestroyChildFw) : Except IoError Unit :=
  if !fw.openOk then
    .error ⟨.notFound, "open_protocol failed"⟩
  else if isError fw.status then
    if fw.status = UNSUPPORTED then
      .error ⟨.unsupported,
        "ChildHandle does not support the protocol that is being removed"⟩
    else if fw.status = INVALID_PARAMETER then
      .error ⟨.invalidInput, "ChildHandle is not a valid UEFI handle"⟩
    else if fw.status = ACCESS_DENIED then
      .error ⟨.permissionDenied,
        "The protocol could not be removed from the ChildHandle because its services are being used"⟩
    else
      .error ⟨.other, "Unknown Error: " ++ toString fw.status⟩
  else
    .ok ()

/-- Modelled from the spec: `StatusTranslator` (`common::status_to_io_error`,
whose source file `common.rs` is not under `src/`): known codes map to their
closest generic kind, unknown codes map to Other and preserve the raw numeric
value for diagnostics.  No claim in this development depends on the exact
mapping; it only fills the error branches the claims leave abstract. -/
def status_to_io_error (s : Nat) : IoError :=
  if s = INVALID_PARAMETER then ⟨.invalidInput, "Invalid Parameter"⟩
  else if s = UNSUPPORTED then ⟨.unsupported, "Unsupported"⟩
  else if s = OUT_OF_RESOURCES then ⟨.outOfMemory, "Out of Resources"⟩
  else if s = ACCESS_DENIED then ⟨.permissionDenied, "Access Denied"⟩
  else ⟨.other, "Status: " ++ toString s⟩

/-! ## TCP4 scatter-gather records (net/tcp4.rs)

A caller memory region is its start address plus its byte length; the
firmware record only ever stores the address (`as_ptr()`) and a length, never
the bytes. -/

/-- One contiguous caller memory region (`&[u8]` / `IoSlice` payload). -/
structure Region where
  addr : Nat
  len : Nat
  deriving DecidableEq, Repr

/-- `u32` truncation (`as u32`). -/
def U32 (n : Nat) : Nat := n % 2 ^ 32

/-- Pointer size of the x86_64 UEFI target. -/
def PTR_SIZE : Nat := 8

/-- `mem::size_of::<IoSlice>()`: an `IoSlice` is ABI-compatible with
`iovec`-style {pointer, length}, so two words. -/
def SIZE_OF_IOSLICE : Nat := 2 * PTR_SIZE

/-- `mem::size_of::<IoSliceMut>()`. -/
def SIZE_OF_IOSLICE_MUT : Nat := 2 * PTR_SIZE

/-- `mem::size_of_val(&buf)` for `buf : &mut [IoSliceMut]`: the size of the
fat reference itself (data pointer + element count), two words. -/
def SIZE_OF_SLICE_REF : Nat := 2 * PTR_SIZE

/-- `tcp4::FragmentData`: length + buffer reference (an address). -/
structure FragmentData where
  fragment_length : Nat
  fragment_buffer : Nat
  deriving DecidableEq, Repr

/-- `tcp4::TransmitData` together with its variable-length trailing
fragment array (the `VariableSizeType` allocation, viewed as a value). -/
structure TransmitData where
  push : Bool
  urgent : Bool
  data_length : Nat
  fragment_count : Nat
  fragment_table : List FragmentData
  deriving DecidableEq, Repr

/-- `tcp4::ReceiveData` with its trailing fragment array. -/
structure ReceiveData where
  urgent_flag : Bool
  data_length : Nat
  fragment_count : Nat
  fragment_table : List FragmentData
  deriving DecidableEq, Repr

/-- `Tcp4Protocol` (tcp4.rs:16-20): protocol pointer (abstracted to an id),
the copied `ServiceBinding`, and the owned child handle. -/
structure Tcp4Protocol where
  protocol : Nat
  service_binding : ServiceBinding
  child_handle : Handle
  deriving DecidableEq, Repr

/-- The record `Tcp4Protocol::transmit` initializes (tcp4.rs:99-121):
`buf_size = buf.len() as u32`, push, not urgent, one fragment of
`buf_size` bytes at the buffer's address. -/
def Tcp4Protocol.transmitRecord (buf : Region) : TransmitData :=
  let buf_size := U32 buf.len
  { push := true
    urgent := false
    data_length := buf_size
    fragment_count := 1
    fragment_table := [⟨buf_size, buf.addr⟩] }

/-- The record `Tcp4Protocol::transmit_vectored` initializes
(tcp4.rs:138-171): `buf_size = mem::size_of_val(buf)` for
`buf : &[IoSlice]`, i.e. `buf.len() * size_of::<IoSlice>()`, and each
fragment's length is `mem::size_of_val(b) as u32` for `b : &IoSlice`,
i.e. `size_of::<IoSlice>()` — the size of the `IoSlice` struct itself,
not of the bytes it points to. -/
def Tcp4Protocol.transmitVectoredRecord (bufs : List Region) : TransmitData :=
  let buf_size := bufs.length * SIZE_OF_IOSLICE
  let fragment_tables : List FragmentData :=
    bufs.map fun b => ⟨U32 SIZE_OF_IOSLICE, b.addr⟩
  { push := true
    urgent := false
    data_length := U32 buf_size
    fragment_count := U32 fragment_tables.length
    fragment_table := fragment_tables }

/-- The record `Tcp4Protocol::receive` initializes (tcp4.rs:188-214). -/
def Tcp4Protocol.receiveRecord (buf : Region) : ReceiveData :=
  let buf_size := U32 buf.len
  { urgent_flag := false
    data_length := buf_size
    fragment_count := 1
    fragment_table := [⟨buf_size, buf.addr⟩] }

/-- The record `Tcp4Protocol::receive_vectored` initializes
(tcp4.rs:240-262): `buf_size = mem::size_of_val(&buf) as u32` where
`buf : &mut [IoSliceMut]`, i.e. the size of the fat reference (16), and
each fragment's length is `mem::size_of_val(b) as u32` for
`b : &mut IoSliceMut`, i.e. `size_of::<IoSliceMut>()`. -/
def Tcp4Protocol.receiveVectoredRecord (bufs : List Region) : ReceiveData :=
  let buf_size := U32 SIZE_OF_SLICE_REF
  let fragment_tables : List FragmentData :=
    bufs.map fun b => ⟨U32 SIZE_OF_IOSLICE_MUT, b.addr⟩
  { urgent_flag := false
    data_length := buf_size
    fragment_count := U32 fragment_tables.length
    fragment_table := fragment_tables }

/-- The scatter-gather well-formedness property the spec claims of every
record handed to firmware: header total length = sum of the caller regions'
byte lengths, fragment count = number of regions, and fragment lengths equal
the regions' byte lengths, in order.  (Stated from the spec's words, to be
compared with the records the source builds.) -/
def sgOk (regions : List Region) (dataLength fragmentCount : Nat)
    (frags : List FragmentData) : Prop :=
  dataLength = (regions.map Region.len).sum ∧
  fragmentCount = regions.length ∧
  frags.map FragmentData.fragment_length = regions.map Region.len

instance (regions : List Region) (dl fc : Nat) (frags : List FragmentData) :
    Decidable (sgOk regions dl fc frags) := by
  unfold sgOk; infer_instance

/-! ## TCP4 operations (net/tcp4.rs)

`uefi::thread::Event` and `VariableSizeType` live outside `src/`; each
operation therefore takes an oracle record fixing the outcome of event
creation, record allocation, the raw firmware call, the wait, the status the
firmware writes into the completion token, and — for transmit — the record
state the firmware leaves behind on completion. -/

/-- Error used when `Event::create` fails (exact value irrelevant to the
claims; the spec calls it resource exhaustion). -/
def eventCreateError : IoError := ⟨.outOfMemory, "Event creation failed"⟩

/-- Error used when `Event::wait` itself fails. -/
def waitError : IoError := ⟨.other, "Wait failed"⟩

/-- Error used when `VariableSizeType::from_size` cannot allocate. -/
def allocError : IoError := ⟨.outOfMemory, "Allocation failed"⟩

/-- Oracle for one `transmit`/`transmit_vectored` call. -/
structure TransmitFw where
  eventOk : Bool
  allocOk : Bool
  callStatus : Nat
  waitOk : Bool
  completionStatus : Nat
  finalRecord : TransmitData → TransmitData

/-- `Tcp4Protocol::transmit` (tcp4.rs:89-135): create event, build the
completion token (status ABORTED) and transmit record, issue the raw call,
wait, then read the token status; on success return the `data_length` found
in the (firmware-updated) transmit record. -/
def Tcp4Protocol.transmit (_self : Tcp4Protocol) (buf : Region)
    (fw : TransmitFw) : Except IoError Nat :=
  if !fw.eventOk then .error eventCreateError
  else if !fw.allocOk then .error allocError
  else
    let record := Tcp4Protocol.transmitRecord buf
    if isError fw.callStatus then .error (status_to_io_error fw.callStatus)
    else if !fw.waitOk then .error waitError
    else if isError fw.completionStatus then
      .error (status_to_io_error fw.completionStatus)
    else .ok (fw.finalRecord record).data_length

/-- Oracle for one `accept` call. -/
structure AcceptFw where
  eventOk : Bool
  callStatus : Nat
  waitOk : Bool
  completionStatus : Nat
  newChildHandle : Handle
  openOk : Bool
  openPtr : Nat

/-- `Tcp4Protocol::with_child_handle` (tcp4.rs:332-338): open the TCP4
protocol on the child handle and wrap the triple. -/
def Tcp4Protocol.with_child_handle (service_binding : ServiceBinding)
    (child_handle : Handle) (openOk : Bool) (openPtr : Nat) :
    Except IoError Tcp4Protocol :=
  if openOk then .ok ⟨openPtr, service_binding, child_handle⟩
  else .error ⟨.notFound, "open_protocol failed"⟩

/-- `Tcp4Protocol::accept` (tcp4.rs:56-83): create event, build the
completion token (status ABORTED) inside a listen token, issue the raw
accept, wait, read the status; on a non-error status a null new child handle
is an `Other` error, otherwise the handle is wrapped with the same
`ServiceBinding`.  Total by construction: no panic on any oracle. -/
def Tcp4Protocol.accept (self : Tcp4Protocol) (fw : AcceptFw) :
    Except IoError Tcp4Protocol :=
  if !fw.eventOk then .error eventCreateError
  else if isError fw.callStatus then .error (status_to_io_error fw.callStatus)
  else if !fw.waitOk then .error waitError
  else if isError fw.completionStatus then
    .error (status_to_io_error fw.completionStatus)
  else if fw.newChildHandle = 0 then
    .error ⟨.other, "Null Child Handle"⟩
  else
    Tcp4Protocol.with_child_handle self.service_binding fw.newChildHandle
      fw.openOk fw.openPtr

/-! ## Destruction traces (C3)

Firmware-visible calls a socket makes while being torn down. -/

/-- The two firmware calls destruction makes. -/
inductive FwCall where
  | close (abort : Bool)
  | destroyChild (child : Handle)
  deriving DecidableEq, Repr

/-- Oracle for one `close` call. -/
structure CloseFw where
  eventOk : Bool
  callStatus : Nat
  waitOk : Bool
  completionStatus : Nat

/-- `Tcp4Protocol::close` (tcp4.rs:281-306) with its firmware-call trace:
create event, build the completion token (status ABORTED), issue the raw
close (this is the firmware-visible call), return early on a raw error,
otherwise wait and read the token status. -/
def Tcp4Protocol.closeRun (_self : Tcp4Protocol) (abort_on_close : Bool)
    (fw : CloseFw) : List FwCall × Except IoError Unit :=
  if !fw.eventOk then ([], .error eventCreateError)
  else
    let trace := [FwCall.close abort_on_close]
    if isError fw.callStatus then
      (trace, .error (status_to_io_error fw.callStatus))
    else if !fw.waitOk then (trace, .error waitError)
    else if isError fw.completionStatus then
      (trace, .error (status_to_io_error fw.completionStatus))
    else (trace, .ok ())

/-- `ServiceBinding::destroy_child` with its firmware-call trace: the
firmware `destroy_child` is only reached once `open_protocol` on the parent
handle succeeds. -/
def ServiceBinding.destroyRun (sb : ServiceBinding) (child : Handle)
    (fw : DestroyChildFw) : List FwCall × Except IoError Unit :=
  (if fw.openOk then [FwCall.destroyChild child] else [],
   sb.destroy_child child fw)

/-- `impl Drop for Tcp4Protocol` (tcp4.rs:411-416): `let _ = self.close(true);
let _ = self.service_binding.destroy_child(self.child_handle);` — both
results discarded, second statement always executed. -/
def Tcp4Protocol.dropRun (self : Tcp4Protocol) (cfw : CloseFw)
    (dfw : DestroyChildFw) : List FwCall :=
  (self.closeRun true cfw).1 ++
    (self.service_binding.destroyRun self.child_handle dfw).1

/-! ## Per-operation completion-token traces (C8) -/

/-- Steps of one adapter operation that touch the completion token. -/
inductive Step where
  | allocToken (initStatus : Nat)
  | issueCall
  | waitEvent
  | readStatus
  deriving DecidableEq, Repr

/-- Token discipline checked along a trace: at most one token is allocated,
its initial status is the ABORTED sentinel, the firmware call is only issued
after the token exists, and the status cell is only read after a wait has
returned. -/
def wfAux : Bool → Bool → List Step → Bool
  | _, _, [] => true
  | allocated, waited, Step.allocToken s :: rest =>
      !allocated && (s == ABORTED) && wfAux true waited rest
  | allocated, waited, Step.issueCall :: rest =>
      allocated && wfAux allocated waited rest
  | allocated, _, Step.waitEvent :: rest => wfAux allocated true rest
  | allocated, waited, Step.readStatus :: rest =>
      waited && wfAux allocated waited rest

def wfTrace (t : List Step) : Bool := wfAux false false t

/-- Trace of `accept` (tcp4.rs:56-83): token built at line 63 before the raw
call; status read only after `wait` returns. -/
def acceptTrace (fw : AcceptFw) : List Step :=
  if !fw.eventOk then []
  else
    [Step.allocToken ABORTED, Step.issueCall] ++
      if isError fw.callStatus then []
      else [Step.waitEvent] ++ if !fw.waitOk then [] else [Step.readStatus]

/-- Trace of `transmit`/`transmit_vectored` (tcp4.rs:89-185): token built at
lines 97/145 before the allocation of the transmit record and the call. -/
def transmitTrace (fw : TransmitFw) : List Step :=
  if !fw.eventOk then []
  else
    [Step.allocToken ABORTED] ++
      if !fw.allocOk then []
      else
        [Step.issueCall] ++
          if isError fw.callStatus then []
          else
            [Step.waitEvent] ++ if !fw.waitOk then [] else [Step.readStatus]

/-- Trace of `transmit_vectored` (tcp4.rs:137-185): same token discipline as
`transmit` — token built at line 145, before the record allocation and the
raw call. -/
def transmitVectoredTrace (fw : TransmitFw) : List Step :=
  if !fw.eventOk then []
  else
    [Step.allocToken ABORTED] ++
      if !fw.allocOk then []
      else
        [Step.issueCall] ++
          if isError fw.callStatus then []
          else
            [Step.waitEvent] ++ if !fw.waitOk then [] else [Step.readStatus]

/-- Oracle for one `receive`/`receive_vectored` call. -/
structure ReceiveFw where
  eventOk : Bool
  allocOk : Bool
  callStatus : Nat
  waitOk : Bool
  completionStatus : Nat

/-- Trace of `receive`/`receive_vectored` (tcp4.rs:187-279): token built at
lines 217/266, after the receive-record allocation, before the call. -/
def receiveTrace (fw : ReceiveFw) : List Step :=
  if !fw.eventOk then []
  else if !fw.allocOk then []
  else
    [Step.allocToken ABORTED, Step.issueCall] ++
      if isError fw.callStatus then []
      else [Step.waitEvent] ++ if !fw.waitOk then [] else [Step.readStatus]

/-- Trace of `receive_vectored` (tcp4.rs:232-279): same token discipline as
`receive` — token built at line 266, after the record allocation, before the
raw call. -/
def receiveVectoredTrace (fw : ReceiveFw) : List Step :=
  if !fw.eventOk then []
  else if !fw.allocOk then []
  else
    [Step.allocToken ABORTED, Step.issueCall] ++
      if isError fw.callStatus then []
      else [Step.waitEvent] ++ if !fw.waitOk then [] else [Step.readStatus]

/-- Trace of `close` (tcp4.rs:281-306): token built at line 290 before the
raw call; on a raw-call error the function returns before waiting, so the
status is never read. -/
def closeTrace (fw : CloseFw) : List Step :=
  if !fw.eventOk then []
  else
    [Step.allocToken ABORTED, Step.issueCall] ++
      if isError fw.callStatus then []
      else [Step.waitEvent] ++ if !fw.waitOk then [] else [Step.readStatus]

/-! ## AnonPipe (pipe.rs)

The backed pipe's queue is a `VecDeque<u8>`; bytes are `Nat`s here.  The
`open_protocol` lookup (common.rs, outside `src/`) is an explicit `Bool`
parameter. -/

/-- Modelled from the spec: the growable byte queue backing the channel is
std's `VecDeque<u8>` with its `Read`/`Write` impls (part of this repository
but not under `src/`): "`write(buf)` appends and returns bytes accepted;
`read(buf)` drains up to `buf` capacity and returns bytes produced" — write
appends everything and reports the full length, read pops from the front. -/
def dequeWrite (q : List Nat) (buf : List Nat) : List Nat × Nat :=
  (q ++ buf, buf.length)

/-- Modelled from the spec: `VecDeque`'s `Read` into a destination of `n`
bytes: the first `min n q.length` bytes leave the queue. -/
def dequeRead (q : List Nat) (n : Nat) : List Nat × List Nat × Nat :=
  (q.drop n, q.take n, min n q.length)

/-- `pipe_protocol_write` (pipe.rs:242-255): the queue write never fails, so
the out `buf_size` is set to the accepted count and the status is SUCCESS. -/
def pipe_protocol_write (q : List Nat) (buf : List Nat) :
    List Nat × Nat × Nat :=
  let (q2, x) := dequeWrite q buf
  (q2, x, SUCCESS)

/-- `pipe_protocol_read` (pipe.rs:227-240) on a window of `bufSize` bytes:
drains up to `bufSize` bytes, writes the produced count to `buf_size`,
status SUCCESS. -/
def pipe_protocol_read (q : List Nat) (bufSize : Nat) :
    List Nat × List Nat × Nat × Nat :=
  let (q2, bytes, k) := dequeRead q bufSize
  (q2, bytes, k, SUCCESS)

/-- `AnonPipe::write` (pipe.rs:91-100) for the backed pipe: open the pipe
protocol on the handle, `buf_size = buf.len()`, call the protocol write,
translate an error status, else return the out `buf_size`.  Returns the
queue after the call and the result. -/
def AnonPipe.write (openOk : Bool) (q : List Nat) (buf : List Nat) :
    List Nat × Except IoError Nat :=
  if !openOk then (q, .error ⟨.notFound, "open_protocol failed"⟩)
  else
    let (q2, x, st) := pipe_protocol_write q buf
    if isError st then (q2, .error (status_to_io_error st)) else (q2, .ok x)

/-- `AnonPipe::read` (pipe.rs:49-59) for the backed pipe: reads into `buf`,
returning (queue after, bytes placed at the front of `buf`, result). -/
def AnonPipe.read (openOk : Bool) (q : List Nat) (bufLen : Nat) :
    List Nat × List Nat × Except IoError Nat :=
  if !openOk then (q, [], .error ⟨.notFound, "open_protocol failed"⟩)
  else
    let (q2, bytes, k, st) := pipe_protocol_read q bufLen
    if isError st then (q2, bytes, .error (status_to_io_error st))
    else (q2, bytes, .ok k)

/-- A `Vec<u8>` as contents plus capacity. -/
structure RVec where
  data : List Nat
  cap : Nat
  deriving DecidableEq, Repr

/-- `AnonPipe::read_to_end` (pipe.rs:61-80): query the protocol `size`,
`buf.reserve_exact(size)`, take `buf_size = buf.capacity()`, read into the
window `from_raw_parts_mut(buf.as_mut_ptr(), buf_size)` — a window that
starts at index 0 of the vector's buffer — then `buf.set_len(buf.len() +
buf_size)` with the produced count.  Returns (queue after, sink after,
result). -/
def AnonPipe.read_to_end (openOk : Bool) (q : List Nat) (sink : RVec) :
    List Nat × RVec × Except IoError Nat :=
  if !openOk then (q, sink, .error ⟨.notFound, "open_protocol failed"⟩)
  else
    let size := q.length
    let cap2 := max sink.cap (sink.data.length + size)
    let bufSize := cap2
    let buffer := sink.data ++ List.replicate (cap2 - sink.data.length) 0
    let (q2, bytes, k, st) := pipe_protocol_read q bufSize
    if isError st then (q2, sink, .error (status_to_io_error st))
    else
      let buffer2 := bytes ++ buffer.drop k
      (q2, ⟨buffer2.take (sink.data.length + k), cap2⟩, .ok k)

/-- `pipe_protocol_null_write` (pipe.rs:261-267): returns SUCCESS without
touching the in/out `buf_size`. -/
def pipe_protocol_null_write (bufSize : Nat) : Nat × Nat := (bufSize, SUCCESS)

/-- `pipe_protocol_null_read` (pipe.rs:269-276): writes `0` to `buf_size`
and returns SUCCESS. -/
def pipe_protocol_null_read (_bufSize : Nat) : Nat × Nat := (0, SUCCESS)

/-- `AnonPipe::write` dispatched to the null protocol (`AnonPipe::null`,
pipe.rs:27-32): `buf_size` starts at `buf.len()` and is returned unchanged on
a non-error status. -/
def AnonPipe.null_write (openOk : Bool) (buf : List Nat) :
    Except IoError Nat :=
  if !openOk then .error ⟨.notFound, "open_protocol failed"⟩
  else
    let (x, st) := pipe_protocol_null_write buf.length
    if isError st then .error (status_to_io_error st) else .ok x

/-- `AnonPipe::read` dispatched to the null protocol: the protocol writes
`0` to `buf_size`, places nothing in the buffer. -/
def AnonPipe.null_read (openOk : Bool) (bufLen : Nat) : Except IoError Nat :=
  if !openOk then .error ⟨.notFound, "open_protocol failed"⟩
  else
    let (x, st) := pipe_protocol_null_read bufLen
    if isError st then .error (status_to_io_error st) else .ok x

/-! ## Stdin (stdio.rs) -/

/-- `impl io::Read for Stdin` (stdio.rs:82-121), with the console path
(system table, key strokes, echo) abstracted into one oracle outcome
`console : result × buffer contents afterwards`: when `current_exe()`
succeeds and the `<exe>_stdin` variable is the literal "null", the function
returns `Ok(buf.len())` immediately, before any byte is written to `buf`. -/
def Stdin.read (exeOk : Bool) (envVar : Option String)
    (console : Except IoError Nat × List Nat) (buf : List Nat) :
    Except IoError Nat × List Nat :=
  match exeOk, envVar with
  | true, some v => if v = "null" then (.ok buf.length, buf) else console
  | true, none => console
  | false, _ => console

/-! ## Helper lemmas -/

theorem isError_SUCCESS : isError SUCCESS = false := by decide

theorem isError_INVALID_PARAMETER : isError INVALID_PARAMETER = true := by decide

theorem isError_UNSUPPORTED : isError UNSUPPORTED = true := by decide

theorem isError_OUT_OF_RESOURCES : isError OUT_OF_RESOURCES = true := by decide

theorem isError_ACCESS_DENIED : isError ACCESS_DENIED = true := by decide

/-! ## Claim theorems -/

/-- C1: the claim says every scatter-gather record handed to firmware has
`data_length` = sum of the caller regions' byte lengths, `fragment_count` =
number of regions, and each fragment's length = its region's byte length.
The single-buffer `transmit`/`receive` records satisfy this, but the
vectored records do not: for one 3-byte region, `transmit_vectored` builds
fragments of length `size_of::<IoSlice>()` = 16 and `data_length` 16, and
for two regions of 3 and 5 bytes `receive_vectored` sets `data_length` to
`size_of_val(&buf)` = 16 (the fat reference) with 16-byte fragments. -/
theorem scatter_gather_vectored_size_of_bug :
    sgOk [⟨4096, 3⟩] (Tcp4Protocol.transmitRecord ⟨4096, 3⟩).data_length
      (Tcp4Protocol.transmitRecord ⟨4096, 3⟩).fragment_count
      (Tcp4Protocol.transmitRecord ⟨4096, 3⟩).fragment_table ∧
    sgOk [⟨4096, 3⟩] (Tcp4Protocol.receiveRecord ⟨4096, 3⟩).data_length
      (Tcp4Protocol.receiveRecord ⟨4096, 3⟩).fragment_count
      (Tcp4Protocol.receiveRecord ⟨4096, 3⟩).fragment_table ∧
    ¬ sgOk [⟨4096, 3⟩]
      (Tcp4Protocol.transmitVectoredRecord [⟨4096, 3⟩]).data_length
      (Tcp4Protocol.transmitVectoredRecord [⟨4096, 3⟩]).fragment_count
      (Tcp4Protocol.transmitVectoredRecord [⟨4096, 3⟩]).fragment_table ∧
    (Tcp4Protocol.transmitVectoredRecord [⟨4096, 3⟩]).fragment_table.map
      FragmentData.fragment_length = [16] ∧
    (Tcp4Protocol.transmitVectoredRecord [⟨4096, 3⟩]).data_length = 16 ∧
    ¬ sgOk [⟨4096, 3⟩, ⟨8192, 5⟩]
      (Tcp4Protocol.receiveVectoredRecord [⟨4096, 3⟩, ⟨8192, 5⟩]).data_length
      (Tcp4Protocol.receiveVectoredRecord [⟨4096, 3⟩, ⟨8192, 5⟩]).fragment_count
      (Tcp4Protocol.receiveVectoredRecord [⟨4096, 3⟩, ⟨8192, 5⟩]).fragment_table ∧
    (Tcp4Protocol.receiveVectoredRecord [⟨4096, 3⟩, ⟨8192, 5⟩]).data_length = 16 := by
  decide

/-- C2: `transmit` builds its record with `push = true`, `urgent = false`,
and when event creation, allocation, the raw call, the wait, and the
completion status all succeed it returns `Ok` of the `data_length` found in
the record after firmware completion (`fw.finalRecord`), not the caller's
requested length. -/
theorem transmit_flags_and_firmware_reported_length (self : Tcp4Protocol)
    (buf : Region) (fw : TransmitFw) (h1 : fw.eventOk = true)
    (h2 : fw.allocOk = true) (h3 : isError fw.callStatus = false)
    (h4 : fw.waitOk = true) (h5 : isError fw.completionStatus = false) :
    (Tcp4Protocol.transmitRecord buf).push = true ∧
    (Tcp4Protocol.transmitRecord buf).urgent = false ∧
    self.transmit buf fw =
      .ok (fw.finalRecord (Tcp4Protocol.transmitRecord buf)).data_length := by
  refine ⟨rfl, rfl, ?_⟩
  simp [Tcp4Protocol.transmit, h1, h2, h3, h4, h5]

/-- Witness for C2: a 5-byte buffer with a firmware that rewrites
`data_length` to 2 yields `Ok 2`, the smaller firmware-reported value. -/
theorem transmit_flags_and_firmware_reported_length_witness :
    Tcp4Protocol.transmit ⟨1, ⟨7, 5⟩, 9⟩ ⟨4096, 5⟩
      ⟨true, true, 0, true, 0, fun r => { r with data_length := 2 }⟩ =
      .ok 2 := by
  have h := transmit_flags_and_firmware_reported_length ⟨1, ⟨7, 5⟩, 9⟩
    ⟨4096, 5⟩ ⟨true, true, 0, true, 0, fun r => { r with data_length := 2 }⟩
    rfl rfl (by decide) rfl (by decide)
  simpa using h.2.2

/-- The firmware-call trace of `close` is the single close call whenever its
event could be created, regardless of every later outcome. -/
theorem closeRun_fst (self : Tcp4Protocol) (b : Bool) (fw : CloseFw) :
    (self.closeRun b fw).1 =
      if fw.eventOk = true then [FwCall.close b] else [] := by
  rcases fw with ⟨e, cs, w, comp⟩
  cases e
  · rfl
  · simp only [Tcp4Protocol.closeRun, Bool.not_true, Bool.false_eq_true,
      if_false, if_true]
    repeat' split
    all_goals rfl

/-- The firmware-call trace of `destroy_child` is the single destroy call
whenever the service-binding lookup succeeds. -/
theorem destroyRun_fst (sb : ServiceBinding) (child : Handle)
    (fw : DestroyChildFw) :
    (sb.destroyRun child fw).1 =
      if fw.openOk = true then [FwCall.destroyChild child] else [] := rfl

/-- C3: on every drop path, `Drop for Tcp4Protocol` runs `close(true)` and
then `destroy_child(child_handle)`, discarding both results.  The
firmware-visible trace is exactly the close call (present whenever its event
could be created) followed by the destroy call (present whenever the
service-binding lookup succeeds) — so the destroy attempt is independent of
the close outcome and every close event precedes every destroy event. -/
theorem drop_close_before_destroy_child (self : Tcp4Protocol) (cfw : CloseFw)
    (dfw : DestroyChildFw) :
    self.dropRun cfw dfw =
      (if cfw.eventOk = true then [FwCall.close true] else []) ++
        (if dfw.openOk = true then [FwCall.destroyChild self.child_handle]
         else []) := by
  simp only [Tcp4Protocol.dropRun, closeRun_fst, destroyRun_fst]

/-- C4: under a created event, a successful raw call, a successful wait and
a non-error completion status, `accept` maps a null new child handle to an
`Other` "Null Child Handle" error and wraps a non-null handle (when the
protocol opens on it) as a socket carrying the same `ServiceBinding`.  The
embedding is a total function: no input panics. -/
theorem accept_null_child_handle (self : Tcp4Protocol) (fw : AcceptFw)
    (h1 : fw.eventOk = true) (h2 : isError fw.callStatus = false)
    (h3 : fw.waitOk = true) (h4 : isError fw.completionStatus = false) :
    (fw.newChildHandle = 0 →
      self.accept fw = .error ⟨.other, "Null Child Handle"⟩) ∧
    (fw.newChildHandle ≠ 0 → fw.openOk = true →
      self.accept fw =
        .ok ⟨fw.openPtr, self.service_binding, fw.newChildHandle⟩) := by
  constructor
  · intro h0
    simp [Tcp4Protocol.accept, h1, h2, h3, h4, h0]
  · intro h0 ho
    simp [Tcp4Protocol.accept, Tcp4Protocol.with_child_handle, h1, h2, h3,
      h4, h0, ho]

/-- Witness for C4: a success status with a null new child handle yields the
`Other` error. -/
theorem accept_null_child_handle_witness :
    Tcp4Protocol.accept ⟨1, ⟨7, 5⟩, 9⟩ ⟨true, 0, true, 0, 0, true, 4⟩ =
      .error ⟨.other, "Null Child Handle"⟩ :=
  (accept_null_child_handle ⟨1, ⟨7, 5⟩, 9⟩ ⟨true, 0, true, 0, 0, true, 4⟩
    rfl (by decide) rfl (by decide)).1 rfl

/-- C5: on the backed channel, writing a byte sequence into an empty queue
and then calling `read_to_end` on an empty sink returns `Ok` of the
sequence's length, leaves the sink holding exactly that sequence (whatever
its starting capacity), and drains the queue empty. -/
theorem pipe_write_then_read_to_end (bs : List Nat) (cap : Nat) :
    AnonPipe.write true [] bs = (bs, .ok bs.length) ∧
    AnonPipe.read_to_end true (AnonPipe.write true [] bs).1 ⟨[], cap⟩ =
      ([], ⟨bs, max cap bs.length⟩, .ok bs.length) := by
  have hw : AnonPipe.write true [] bs = (bs, .ok bs.length) := by
    simp [AnonPipe.write, pipe_protocol_write, dequeWrite, isError_SUCCESS]
  refine ⟨hw, ?_⟩
  have hlen : bs.length ≤ max cap bs.length := le_max_right _ _
  rw [hw]
  simp [AnonPipe.read_to_end, pipe_protocol_read, dequeRead, isError_SUCCESS,
    List.take_of_length_le hlen, List.drop_eq_nil_of_le hlen,
    Nat.min_eq_right hlen, List.take_left]

/-- C6: the null channel's `write` of any buffer returns `Ok` of the
buffer's length (the protocol leaves the in/out size untouched and the bytes
are discarded), and its `read` of any buffer returns `Ok 0`; neither call
fails. -/
theorem null_pipe_write_and_read (buf : List Nat) (bufLen : Nat) :
    AnonPipe.null_write true buf = .ok buf.length ∧
    AnonPipe.null_read true bufLen = .ok 0 := by
  constructor <;>
    simp [AnonPipe.null_write, AnonPipe.null_read, pipe_protocol_null_write,
      pipe_protocol_null_read, isError_SUCCESS]

/-- C7: once the service-binding protocol lookup succeeds, `create_child`
maps INVALID_PARAMETER to InvalidInput, OUT_OF_RESOURCES to OutOfMemory and
any other error status to Other with the raw code in the message, while
`destroy_child` maps UNSUPPORTED to Unsupported, INVALID_PARAMETER to
InvalidInput, ACCESS_DENIED to PermissionDenied, any other error status to
Other with the raw code, and a non-error status to `Ok ()`. -/
theorem service_binding_error_mapping (sb : ServiceBinding) (child : Handle)
    (cfw : CreateChildFw) (dfw : DestroyChildFw)
    (hco : cfw.openOk = true) (hdo : dfw.openOk = true) :
    (cfw.status = INVALID_PARAMETER →
      sb.create_child cfw = .error ⟨.invalidInput, "ChildHandle is NULL"⟩) ∧
    (cfw.status = OUT_OF_RESOURCES →
      sb.create_child cfw = .error ⟨.outOfMemory,
        "There are not enough resources available to create the child"⟩) ∧
    (isError cfw.status = true → cfw.status ≠ INVALID_PARAMETER →
      cfw.status ≠ OUT_OF_RESOURCES →
      sb.create_child cfw =
        .error ⟨.other, "Unknown Error: " ++ toString cfw.status⟩) ∧
    (dfw.status = UNSUPPORTED →
      sb.destroy_child child dfw = .error ⟨.unsupported,
        "ChildHandle does not support the protocol that is being removed"⟩) ∧
    (dfw.status = INVALID_PARAMETER →
      sb.destroy_child child dfw =
        .error ⟨.invalidInput, "ChildHandle is not a valid UEFI handle"⟩) ∧
    (dfw.status = ACCESS_DENIED →
      sb.destroy_child child dfw = .error ⟨.permissionDenied,
        "The protocol could not be removed from the ChildHandle because its services are being used"⟩) ∧
    (isError dfw.status = true → dfw.status ≠ UNSUPPORTED →
      dfw.status ≠ INVALID_PARAMETER → dfw.status ≠ ACCESS_DENIED →
      sb.destroy_child child dfw =
        .error ⟨.other, "Unknown Error: " ++ toString dfw.status⟩) ∧
    (isError dfw.status = false → sb.destroy_child child dfw = .ok ()) := by
  refine ⟨?_, ?_, ?_, ?_, ?_, ?_, ?_, ?_⟩
  · intro h
    simp [ServiceBinding.create_child, hco, h, isError_INVALID_PARAMETER]
  · intro h
    have d1 : OUT_OF_RESOURCES ≠ INVALID_PARAMETER := by decide
    simp [ServiceBinding.create_child, hco, h, isError_OUT_OF_RESOURCES, d1]
  · intro hE h1 h2
    simp [ServiceBinding.create_child, hco, hE, h1, h2]
  · intro h
    simp [ServiceBinding.destroy_child, hdo, h, isError_UNSUPPORTED]
  · intro h
    have d1 : INVALID_PARAMETER ≠ UNSUPPORTED := by decide
    simp [ServiceBinding.destroy_child, hdo, h, isError_INVALID_PARAMETER, d1]
  · intro h
    have d1 : ACCESS_DENIED ≠ UNSUPPORTED := by decide
    have d2 : ACCESS_DENIED ≠ INVALID_PARAMETER := by decide
    simp [ServiceBinding.destroy_child, hdo, h, isError_ACCESS_DENIED, d1, d2]
  · intro hE h1 h2 h3
    simp [ServiceBinding.destroy_child, hdo, hE, h1, h2, h3]
  · intro h
    simp [ServiceBinding.destroy_child, hdo, h]

/-- Witness for C7: an INVALID_PARAMETER status on `create_child` yields the
InvalidInput error, and a SUCCESS status on `destroy_child` yields `Ok`. -/
theorem service_binding_error_mapping_witness :
    ServiceBinding.create_child ⟨7, 5⟩ ⟨true, INVALID_PARAMETER, 0⟩ =
        .error ⟨.invalidInput, "ChildHandle is NULL"⟩ ∧
      ServiceBinding.destroy_child ⟨7, 5⟩ 9 ⟨true, 0⟩ = .ok () :=
  ⟨(service_binding_error_mapping ⟨7, 5⟩ 9 ⟨true, INVALID_PARAMETER, 0⟩
      ⟨true, 0⟩ rfl rfl).1 rfl,
   (service_binding_error_mapping ⟨7, 5⟩ 9 ⟨true, INVALID_PARAMETER, 0⟩
      ⟨true, 0⟩ rfl rfl).2.2.2.2.2.2.2 (by decide)⟩

theorem wf_acceptTrace (fw : AcceptFw) : wfTrace (acceptTrace fw) = true := by
  rcases fw with ⟨e, cs, w, comp, nh, oo, op⟩
  cases e <;> cases h1 : isError cs <;> cases w <;>
    simp [acceptTrace, wfTrace, wfAux, h1]

theorem wf_transmitTrace (fw : TransmitFw) :
    wfTrace (transmitTrace fw) = true := by
  rcases fw with ⟨e, a, cs, w, comp, fr⟩
  cases e <;> cases a <;> cases h1 : isError cs <;> cases w <;>
    simp [transmitTrace, wfTrace, wfAux, h1]

theorem wf_transmitVectoredTrace (fw : TransmitFw) :
    wfTrace (transmitVectoredTrace fw) = true := by
  rcases fw with ⟨e, a, cs, w, comp, fr⟩
  cases e <;> cases a <;> cases h1 : isError cs <;> cases w <;>
    simp [transmitVectoredTrace, wfTrace, wfAux, h1]

theorem wf_receiveTrace (fw : ReceiveFw) :
    wfTrace (receiveTrace fw) = true := by
  rcases fw with ⟨e, a, cs, w, comp⟩
  cases e <;> cases a <;> cases h1 : isError cs <;> cases w <;>
    simp [receiveTrace, wfTrace, wfAux, h1]

theorem wf_receiveVectoredTrace (fw : ReceiveFw) :
    wfTrace (receiveVectoredTrace fw) = true := by
  rcases fw with ⟨e, a, cs, w, comp⟩
  cases e <;> cases a <;> cases h1 : isError cs <;> cases w <;>
    simp [receiveVectoredTrace, wfTrace, wfAux, h1]

theorem wf_closeTrace (fw : CloseFw) : wfTrace (closeTrace fw) = true := by
  rcases fw with ⟨e, cs, w, comp⟩
  cases e <;> cases h1 : isError cs <;> cases w <;>
    simp [closeTrace, wfTrace, wfAux, h1]

/-- C8: in every operation that submits a completion token (accept,
transmit, transmit_vectored, receive, receive_vectored, close), the trace of
token events is well-formed under `wfTrace`: the single token the call
allocates is initialized with the ABORTED sentinel before the firmware call
is issued, and the status cell is read only after the paired wait has
returned — for every outcome of event creation, allocation, the raw call and
the wait. -/
theorem completion_token_discipline (fa : AcceptFw) (ft fv : TransmitFw)
    (fr fv2 : ReceiveFw) (fc : CloseFw) :
    wfTrace (acceptTrace fa) = true ∧
    wfTrace (transmitTrace ft) = true ∧
    wfTrace (transmitVectoredTrace fv) = true ∧
    wfTrace (receiveTrace fr) = true ∧
    wfTrace (receiveVectoredTrace fv2) = true ∧
    wfTrace (closeTrace fc) = true :=
  ⟨wf_acceptTrace fa, wf_transmitTrace ft, wf_transmitVectoredTrace fv,
   wf_receiveTrace fr, wf_receiveVectoredTrace fv2, wf_closeTrace fc⟩

/-- C9: when `current_exe()` succeeds and the `<exe>_stdin` environment
variable is the literal "null", `Stdin::read` returns `Ok(buf.len())` — the
full requested length, not `Ok 0` — and writes nothing into the buffer,
whatever the console path would have produced. -/
theorem stdin_null_env_reports_full_length
    (console : Except IoError Nat × List Nat) (buf : List Nat) :
    Stdin.read true (some "null") console buf = (.ok buf.length, buf) := by
  simp [Stdin.read]

/-- C10: when the firmware `create_child` call completes with a non-error
status but writes a null child handle, `create_child` returns an `Other`
"Null Handle" error; consequently every handle it does return is
non-null. -/
theorem create_child_nonnull_handle (sb : ServiceBinding)
    (fw : CreateChildFw) (ho : fw.openOk = true)
    (hs : isError fw.status = false) :
    (fw.writtenHandle = 0 →
      sb.create_child fw = .error ⟨.other, "Null Handle"⟩) ∧
    (∀ h : Handle, sb.create_child fw = .ok h → h ≠ 0) := by
  constructor
  · intro h0
    simp [ServiceBinding.create_child, ho, hs, h0]
  · intro h hok
    by_cases hz : fw.writtenHandle = 0
    · simp [ServiceBinding.create_child, ho, hs, hz] at hok
    · simp [ServiceBinding.create_child, ho, hs, hz] at hok
      subst hok
      exact hz

/-- Witness for C10: a success status with a null written handle yields the
`Other` "Null Handle" error. -/
theorem create_child_nonnull_handle_witness :
    ServiceBinding.create_child ⟨7, 5⟩ ⟨true, 0, 0⟩ =
      .error ⟨.other, "Null Handle"⟩ :=
  (create_child_nonnull_handle ⟨7, 5⟩ ⟨true, 0, 0⟩ rfl (by decide)).1 rfl

end Uefi
